import Mathlib

/-!
Verification of the Blockly games dialog manager (`lib-dialogs.js`,
`BlocklyDialogs`) and the turtle custom field
(`examples/turtle-field-demo/field_turtle.js`, `FieldTurtle`).

The JavaScript module mutates a set of module-level globals and the DOM.
We embed it as pure functions over an explicit state record `DState`,
together with an event trace (`Ev`) that records the observable DOM /
callback effects in the order the source performs them.  DOM elements are
identified by natural-number ids; the singleton `#dialog` container, the
`#dialogShadow` backdrop and the `#dialogBorder` ghost element are
represented by dedicated style fields of the state.
-/

namespace BlocklyDialogs

/-- A DOM element passed to `showDialog` as `content`.  `hideButtons` are the
descendants carrying the `addHideHandler` marker class; `primary`,
`secondary` and `buttons` are the descendant lists consulted by the focus
policy of `endResult` (in that order). -/
structure Content where
  id : Nat
  hideButtons : List Nat
  primary : List Nat
  secondary : List Nat
  buttons : List Nat
  deriving Repr, DecidableEq

/-- The module-level globals of `BlocklyDialogs` plus the DOM state the
module mutates.  `dialogShown`, `dialogZ` model `dialog.style.visibility` /
`zIndex`; `shadowVisible`, `shadowOpacity` (in tenths), `shadowZ` model the
backdrop; `borderVisible` models `dialogBorder`.  `dialogChildren` is the
child list of the `#dialog` container, `bodyExtra` the elements appended to
`document.body` by `hideDialog`, `hiddenMarked` the set of elements
carrying the `dialogHiddenContent` class.  `nextId` supplies fresh ids for
the header element and event-binding wrappers. -/
structure DState where
  isDialogVisible : Bool
  dialogOrigin : Option Nat
  dialogDispose : Option Nat
  dialogMouseDownWrapper : Option Nat
  dialogMouseUpWrapper : Option Nat
  dialogMouseMoveWrapper : Option Nat
  dialogStartX : Int
  dialogStartY : Int
  dialogLeft : Int
  dialogTop : Int
  dialogShown : Bool
  dialogZ : Int
  shadowVisible : Bool
  shadowOpacity : Nat
  shadowZ : Int
  borderVisible : Bool
  headerId : Option Nat
  dialogChildren : List Nat
  bodyExtra : List Nat
  hiddenMarked : List Nat
  nextId : Nat
  deriving Repr, DecidableEq

/-- The initial (page-load) state: nothing visible, no bindings. -/
def initState : DState where
  isDialogVisible := false
  dialogOrigin := none
  dialogDispose := none
  dialogMouseDownWrapper := none
  dialogMouseUpWrapper := none
  dialogMouseMoveWrapper := none
  dialogStartX := 0
  dialogStartY := 0
  dialogLeft := 0
  dialogTop := 0
  dialogShown := false
  dialogZ := 0
  shadowVisible := false
  shadowOpacity := 0
  shadowZ := 0
  borderVisible := false
  headerId := none
  dialogChildren := []
  bodyExtra := []
  hiddenMarked := []
  nextId := 100

/-- Observable effects, in source order. -/
inductive Ev where
  | nullCheckFail
  | nullCheckPass
  | wireHideHandler (b : Nat)
  | setVisibleFlag (v : Bool)
  | invokeClose (tok : Nat)
  | clearClose
  | appendHeader (h : Nat)
  | appendContent (c : Nat)
  | unmarkContent (c : Nat)
  | scheduleShowEnd
  | scheduleHideEnd
  | domShowDialog
  | focusButton (b : Nat)
  | domHideShadow
  | domHideDialog
  | removeHeader (h : Nat)
  | moveToBody (c : Nat)
  deriving Repr, DecidableEq

/-- `BlocklyDialogs.dialogUnbindDragEvents_` (lines 212-221): unbind the
document-level mouseup and mousemove listeners, if bound. -/
def dialogUnbindDragEvents_ (st : DState) : DState :=
  { st with dialogMouseUpWrapper := none, dialogMouseMoveWrapper := none }

/-- The deferred completion step of `hideDialog` (lines 247-252): hide the
shadow and the animated border.  Note: the source performs these mutations
unconditionally, with no re-check of `isDialogVisible_`. -/
def hideEndResult (st : DState) : DState × List Ev :=
  ({ st with shadowZ := -1, shadowVisible := false, borderVisible := false },
   [Ev.domHideShadow])

/-- Focus policy of `endResult` (lines 128-138): the first `primary`
descendant, else the first `secondary`, else the first generic button. -/
def focusEvs (c : Content) : List Ev :=
  match c.primary with
  | b :: _ => [Ev.focusButton b]
  | [] =>
    match c.secondary with
    | b :: _ => [Ev.focusButton b]
    | [] =>
      match c.buttons with
      | b :: _ => [Ev.focusButton b]
      | [] => []

/-- The completion step of `showDialog` (lines 119-139): if the dialog was
closed during opening, do nothing; otherwise make the dialog visible, hide
the border, and focus per the focus policy. -/
def showEndResult (c : Content) (st : DState) : DState × List Ev :=
  if st.isDialogVisible then
    ({ st with dialogShown := true, dialogZ := 10, borderVisible := false },
     Ev.domShowDialog :: focusEvs c)
  else (st, [])

/-- Lines 239-240: invoke the dispose callback if set, then clear it. -/
def closeEvs : Option Nat → List Ev
  | some t => [Ev.invokeClose t, Ev.clearClose]
  | none => [Ev.clearClose]

/-- Lines 264-267: remove the `#dialogHeader` element from the dialog, if
present. -/
def headerPhase (st : DState) : DState × List Ev :=
  match st.headerId with
  | some h =>
      ({ st with dialogChildren := st.dialogChildren.erase h, headerId := none },
       [Ev.removeHeader h])
  | none => (st, [])

/-- `classList.add` for the `dialogHiddenContent` marker (idempotent). -/
def addMark (m : List Nat) (c : Nat) : List Nat :=
  if c ∈ m then m else m ++ [c]

/-- Lines 268-272: detach every remaining child of the dialog container,
tag it with the `dialogHiddenContent` class and append it to the body. -/
def movePhase (st : DState) : DState × List Ev :=
  ({ st with
      dialogChildren := [],
      hiddenMarked := st.dialogChildren.foldl addMark st.hiddenMarked,
      bodyExtra := st.bodyExtra ++ st.dialogChildren },
   st.dialogChildren.map Ev.moveToBody)

/-- The state after lines 232-245 of `hideDialog`: drag and header
listeners unbound, visibility flag cleared, dispose callback cleared
(after its invocation, which the trace records via `closeEvs`), shadow
opacity zeroed. -/
def hideSt3 (st : DState) : DState :=
  { dialogUnbindDragEvents_ st with
      dialogMouseDownWrapper := none, isDialogVisible := false,
      dialogDispose := none, shadowOpacity := 0 }

/-- Lines 253-261 of `hideDialog`: when animating towards a recorded
origin, defer `endResult` by 175 ms (`Ev.scheduleHideEnd`); otherwise run
it synchronously. -/
def hideEndPhase (animate : Bool) (st3 : DState) : DState × List Ev :=
  let origin2 := if animate then st3.dialogOrigin else none
  if origin2.isSome then (st3, [Ev.scheduleHideEnd]) else hideEndResult st3

/-- The state after line 263 of `hideDialog`: dialog container hidden and
demoted in stacking order (synchronously, regardless of animation). -/
def hideSt5 (animate : Bool) (st : DState) : DState :=
  { (hideEndPhase animate (hideSt3 st)).1 with dialogShown := false, dialogZ := -1 }

/-- `BlocklyDialogs.hideDialog` (lines 228-273).  Returns the new state and
the effect trace.  `Ev.scheduleHideEnd` stands for the
`setTimeout(endResult, 175)` of the animated branch; the synchronous branch
runs `hideEndResult` inline. -/
def hideDialog (animate : Bool) (st : DState) : DState × List Ev :=
  if st.isDialogVisible then
    let r6 := headerPhase (hideSt5 animate st)
    let r7 := movePhase r6.1
    (r7.1,
     Ev.setVisibleFlag false :: closeEvs st.dialogDispose
       ++ (hideEndPhase animate (hideSt3 st)).2 ++ [Ev.domHideDialog]
       ++ r6.2 ++ r7.2)
  else (st, [])

/-- Result of `showDialog`: `err` is the thrown `TypeError`, if any (the
state is unchanged when the throw aborts the operation). -/
structure ShowResult where
  err : Option String
  st : DState
  tr : List Ev
  deriving Repr, DecidableEq

/-- The `addHideHandler` wiring loop (lines 80-86): each marked button
gets click / touchend handlers and loses the marker. -/
def wireTr (c : Content) : List Ev := c.hideButtons.map Ev.wireHideHandler

/-- Lines 87-89 of `showDialog`: a visible dialog is force-hidden with no
animation. -/
def showAfterHide (st : DState) : DState × List Ev :=
  if st.isDialogVisible then hideDialog false st else (st, [])

/-- Lines 94-96 of `showDialog`: set the visibility flag and record the
new origin and dispose callback. -/
def showSt2 (origin dispose : Option Nat) (st : DState) : DState :=
  { (showAfterHide st).1 with
      isDialogVisible := true, dialogOrigin := origin, dialogDispose := dispose }

/-- Lines 105-115 of `showDialog`: when modal, raise the backdrop and
create the drag-handle header, binding its mousedown handler. -/
def modalPhase (modal : Bool) (st2 : DState) : DState × List Ev :=
  if modal then
    ({ st2 with
        shadowVisible := true, shadowOpacity := 3, shadowZ := 9,
        dialogChildren := st2.dialogChildren ++ [st2.nextId],
        headerId := some st2.nextId,
        dialogMouseDownWrapper := some (st2.nextId + 1),
        nextId := st2.nextId + 2 },
     [Ev.appendHeader st2.nextId])
  else (st2, [])

/-- Lines 116-117 of `showDialog`: append the content into the dialog
container (re-parenting it away from the body if it was there) and clear
its `dialogHiddenContent` marker. -/
def contentPhase (c : Content) (st3 : DState) : DState :=
  { st3 with
      dialogChildren := st3.dialogChildren ++ [c.id],
      bodyExtra := st3.bodyExtra.erase c.id,
      hiddenMarked := st3.hiddenMarked.erase c.id }

/-- Lines 145-153 of `showDialog`: when animating from a non-null origin,
start the border animation and defer `endResult` by 175 ms
(`Ev.scheduleShowEnd`); otherwise run it synchronously. -/
def showEndPhase (c : Content) (origin : Option Nat) (animate : Bool)
    (st4 : DState) : DState × List Ev :=
  if animate && origin.isSome then
    ({ st4 with borderVisible := true }, [Ev.scheduleShowEnd])
  else showEndResult c st4

/-- `BlocklyDialogs.showDialog` (lines 75-153).  The null check on
`content` is the first statement of the source (line 77); the
`addHideHandler` wiring loop (lines 80-86) follows it.  A visible dialog is
force-hidden with `hideDialog(false)` (lines 87-89) before the module
globals are overwritten.  `Ev.scheduleShowEnd` stands for
`setTimeout(endResult, 175)`; the non-animated branch runs `showEndResult`
inline. -/
def showDialog (content : Option Content) (origin : Option Nat)
    (animate modal : Bool) (dispose : Option Nat) (st : DState) : ShowResult :=
  match content with
  | none => ⟨some "TypeError: Content not found", st, [Ev.nullCheckFail]⟩
  | some c =>
    let st4 := contentPhase c (modalPhase modal (showSt2 origin dispose st)).1
    ⟨none, (showEndPhase c origin animate st4).1,
     Ev.nullCheckPass :: wireTr c
       ++ (showAfterHide st).2 ++ [Ev.setVisibleFlag true]
       ++ (modalPhase modal (showSt2 origin dispose st)).2
       ++ [Ev.appendContent c.id, Ev.unmarkContent c.id]
       ++ (showEndPhase c origin animate st4).2⟩

/-- A mouse event as consumed by the drag handlers. -/
structure MouseEvent where
  rightButton : Bool
  clientX : Int
  clientY : Int
  deriving Repr, DecidableEq

/-- Viewport and dialog geometry read by `dialogMouseMove_`
(`window.innerWidth/Height`, `dialog.offsetWidth/Height`). -/
structure Viewport where
  innerWidth : Int
  innerHeight : Int
  dialogWidth : Int
  dialogHeight : Int
  deriving Repr, DecidableEq

/-- `BlocklyDialogs.dialogMouseDown_` (lines 171-189): unbind any active
drag, return on right-click, otherwise record the start offset and bind
document-level mouseup / mousemove listeners. -/
def dialogMouseDown_ (e : MouseEvent) (st : DState) : DState :=
  let st := dialogUnbindDragEvents_ st
  if e.rightButton then st
  else
    let st := { st with
      dialogStartX := st.dialogLeft - e.clientX,
      dialogStartY := st.dialogTop - e.clientY }
    { st with
      dialogMouseUpWrapper := some st.nextId,
      dialogMouseMoveWrapper := some (st.nextId + 1),
      nextId := st.nextId + 2 }

/-- `BlocklyDialogs.dialogMouseMove_` (lines 196-206): reposition the
dialog, applying `Math.max(·, 0)` first and the viewport upper bound
second, each axis independently. -/
def dialogMouseMove_ (vp : Viewport) (e : MouseEvent) (st : DState) : DState :=
  let dialogLeft := st.dialogStartX + e.clientX
  let dialogTop := st.dialogStartY + e.clientY
  let dialogTop := max dialogTop 0
  let dialogTop := min dialogTop (vp.innerHeight - vp.dialogHeight)
  let dialogLeft := max dialogLeft 0
  let dialogLeft := min dialogLeft (vp.innerWidth - vp.dialogWidth)
  { st with dialogLeft := dialogLeft, dialogTop := dialogTop }

/-- The browser dispatches a document-level mousemove to
`dialogMouseMove_` only while the listener is bound. -/
def dispatchMouseMove (vp : Viewport) (e : MouseEvent) (st : DState) : DState :=
  if st.dialogMouseMoveWrapper.isSome then dialogMouseMove_ vp e st else st

/-- Clamp with the lower bound applied first and the upper bound second
(the claim-side formula). -/
def clampLowThenHigh (v lo hi : Int) : Int :=
  min (max v lo) hi

/-- Outcome of `abortOffer`. -/
inductive AbortAction where
  | returnSolved
  | reschedule (ms : Nat)
  | showAbortDialog
  deriving Repr, DecidableEq

/-- `BlocklyDialogs.abortOffer` (lines 358-388).  `levelSolved` is the
truthiness of the stored level-complete flag, `isDragging` the workspace
drag query.  When neither guard fires it shows the `dialogAbort` content
modally without animation. -/
def abortOffer (levelSolved isDragging : Bool) (abortContent : Content)
    (disposeTok : Nat) (st : DState) : AbortAction × DState × List Ev :=
  if levelSolved then (AbortAction.returnSolved, st, [])
  else if st.isDialogVisible || isDragging then
    (AbortAction.reschedule (15 * 1000), st, [])
  else
    let r := showDialog (some abortContent) none false true (some disposeTok) st
    (AbortAction.showAbortDialog, r.st, r.tr)

/-- Counts `invokeClose` events in a trace. -/
def isClose : Ev → Bool
  | Ev.invokeClose _ => true
  | _ => false

def countClose (tr : List Ev) : Nat := tr.countP isClose

end BlocklyDialogs

namespace FieldTurtle

/-- `FieldTurtle.PATTERNS`. -/
def PATTERNS : List String := ["Dots", "Stripes", "Hexagons"]

/-- `FieldTurtle.HATS`. -/
def HATS : List String := ["Stovepipe", "Crown", "Propeller", "Mask", "Fedora"]

/-- `FieldTurtle.NAMES`. -/
def NAMES : List String :=
  ["Yertle", "Franklin", "Crush", "Leonardo", "Bowser", "Squirtle", "Oogway"]

/-- The three-part turtle value.  A component is `none` when the
JavaScript value is `undefined` or `null` (the source only ever tests
components with `== undefined` and truthiness, which identify the two). -/
structure TurtleValue where
  pattern : Option String
  hat : Option String
  turtleName : Option String
  deriving Repr, DecidableEq

/-- JavaScript falsiness of a component value: `undefined`, `null` and the
empty string are falsy. -/
def jsFalsy : Option String → Bool
  | none => true
  | some s => s == ""

/-- `FieldTurtle.doClassValidation_` (lines 140-177), operationally: each
`undefined` component is replaced by
`this.displayValue_ && this.displayValue_.<comp>`; a defined component
absent from the allowed list is set to `null`; the resolved object is
cached (`cachedValidatedValue_`) and returned, or `null` is returned when
any resolved component is falsy.  Returns `(cached, result)`. -/
def doClassValidation_ (display : Option TurtleValue) (nv : TurtleValue) :
    TurtleValue × Option TurtleValue :=
  let p :=
    match nv.pattern with
    | none => display.bind TurtleValue.pattern
    | some s => if PATTERNS.contains s then some s else none
  let h :=
    match nv.hat with
    | none => display.bind TurtleValue.hat
    | some s => if HATS.contains s then some s else none
  let n :=
    match nv.turtleName with
    | none => display.bind TurtleValue.turtleName
    | some s => if NAMES.contains s then some s else none
  let cached : TurtleValue := ⟨p, h, n⟩
  if jsFalsy p || jsFalsy h || jsFalsy n then (cached, none)
  else (cached, some cached)

/-- Claim-side per-component resolution: an undefined component is
replaced by the display value's component; a defined one not contained in
the allowed list becomes null. -/
def resolveComp (allowed : List String) (dispComp inComp : Option String) :
    Option String :=
  match inComp with
  | none => dispComp
  | some s => if allowed.contains s then some s else none

/-- The mutable per-field state touched by the setValue pipeline. -/
structure FieldState where
  value : Option TurtleValue
  displayValue : Option TurtleValue
  cachedValidatedValue : Option TurtleValue
  isValueInvalid : Bool
  isDirty : Bool
  deriving Repr, DecidableEq

/-- `FieldTurtle.doValueUpdate_` (lines 180-189): store the new value
(super), mirror it as the display value, mark the field dirty and valid. -/
def doValueUpdate_ (v : TurtleValue) (fs : FieldState) : FieldState :=
  { fs with
      value := some v, isDirty := true,
      displayValue := some v, isValueInvalid := false }

/-- `FieldTurtle.doValueInvalid_` (lines 194-204): keep the stored value,
display the invalid value, mark the field dirty and invalid. -/
def doValueInvalid_ (invalidValue : TurtleValue) (fs : FieldState) : FieldState :=
  { fs with
      displayValue := some invalidValue, isDirty := true,
      isValueInvalid := true }

/-- Modelled from the spec: `Blockly.Field.setValue` lives in the external
Blockly library, not in this repository.  Per the field's own doc comments
("Called by the setValue() function"; "if the new value is invalid the
field simply won't be updated"), it runs the class validator and then
either `doValueInvalid_` on the (mutated, cached) new value when the
validator returns null, or `doValueUpdate_` on the returned value. -/
def setValue (fs : FieldState) (nv : TurtleValue) : FieldState :=
  let r := doClassValidation_ fs.displayValue nv
  let fs := { fs with cachedValidatedValue := some r.1 }
  match r.2 with
  | none => doValueInvalid_ r.1 fs
  | some v => doValueUpdate_ v fs

/-- `Array.prototype.indexOf` on a string array: index of the first
occurrence, `-1` when absent (also for a `null`/`undefined` probe). -/
def jsIndexOfAux (s : String) : List String → Int
  | [] => -1
  | x :: xs =>
    if x == s then 0
    else
      let r := jsIndexOfAux s xs
      if r == -1 then -1 else r + 1

def jsIndexOf (l : List String) (v : Option String) : Int :=
  match v with
  | none => -1
  | some s => jsIndexOfAux s l

/-- The new component value computed by `createArrowListener`
(lines 377-390): `indexOf` of the current display component, moved by
`direction`, wrapped to the last index when it reaches `-1` and to `0`
when it reaches the length; the listener then passes
`{[variable]: array[currentIndex]}` to `setValue`. -/
def createArrowValue (array : List String) (current : Option String)
    (direction : Int) : Option String :=
  let ci := jsIndexOf array current + direction
  let ci :=
    if ci ≤ -1 then (array.length : Int) - 1
    else if (array.length : Int) ≤ ci then 0
    else ci
  array.get? ci.toNat

/-- The claim-side fully resolved value: each component resolved against
the display value and its allowed list. -/
def resolvedValue (fs : FieldState) (nv : TurtleValue) : TurtleValue :=
  ⟨resolveComp PATTERNS (fs.displayValue.bind TurtleValue.pattern) nv.pattern,
   resolveComp HATS (fs.displayValue.bind TurtleValue.hat) nv.hat,
   resolveComp NAMES (fs.displayValue.bind TurtleValue.turtleName) nv.turtleName⟩

/-- Whether any resolved component is JavaScript-falsy. -/
def anyComponentFalsy (fs : FieldState) (nv : TurtleValue) : Bool :=
  jsFalsy (resolvedValue fs nv).pattern || jsFalsy (resolvedValue fs nv).hat
    || jsFalsy (resolvedValue fs nv).turtleName

lemma createArrowValue_mem (array : List String) (current : Option String)
    (direction : Int) (v : String)
    (h : createArrowValue array current direction = some v) : v ∈ array := by
  simp only [createArrowValue] at h
  exact List.get?_mem h

/-- C9: in `doClassValidation_` (reached via `setValue`) each component
that is undefined in the new value is replaced by the corresponding
component of the current display value, a defined component absent from
its allowed list (`PATTERNS`, `HATS`, `NAMES`) is set to null, and the
validator returns null exactly when at least one resolved component is
falsy -- in which case the stored value is left unchanged -- and otherwise
returns the fully resolved three-component value, which becomes the
stored value. -/
theorem C9_class_validation (fs : FieldState) (nv : TurtleValue) :
    doClassValidation_ fs.displayValue nv
        = (resolvedValue fs nv,
           if anyComponentFalsy fs nv then none else some (resolvedValue fs nv)) ∧
    (setValue fs nv).value
        = (if anyComponentFalsy fs nv then fs.value
           else some (resolvedValue fs nv)) ∧
    (setValue fs nv).displayValue = some (resolvedValue fs nv) ∧
    (setValue fs nv).cachedValidatedValue = some (resolvedValue fs nv) ∧
    (setValue fs nv).isValueInvalid = anyComponentFalsy fs nv := by
  have key : ∀ (cached : TurtleValue) (b : Bool),
      (if b then (cached, (none : Option TurtleValue))
       else (cached, some cached))
        = (cached, if b then none else some cached) := by
    intro cached b
    cases b <;> rfl
  have h1 : doClassValidation_ fs.displayValue nv
      = (resolvedValue fs nv,
         if anyComponentFalsy fs nv then none else some (resolvedValue fs nv)) :=
    key (resolvedValue fs nv) (anyComponentFalsy fs nv)
  refine ⟨h1, ?_, ?_, ?_, ?_⟩ <;>
    · unfold setValue
      rw [h1]
      by_cases hF : anyComponentFalsy fs nv <;>
        simp [hF, doValueUpdate_, doValueInvalid_]

/-- C10: for each of the option lists `PATTERNS`, `HATS` and `NAMES`, with
the current display component equal to the list's element at index `i`,
the left-arrow listener computes the element at index `(i - 1) mod length`
(wrapping index 0 to the last element) and the right-arrow listener the
element at index `(i + 1) mod length` (wrapping the last index to 0); a
computed component is always an element of the list. -/
theorem C10_arrow_wraparound (L : List String) (i : Nat) (cur : String)
    (hL : L = PATTERNS ∨ L = HATS ∨ L = NAMES)
    (hi : i < L.length) (hc : L.get? i = some cur) :
    createArrowValue L (some cur) (-1)
        = L.get? ((i + L.length - 1) % L.length) ∧
    createArrowValue L (some cur) 1 = L.get? ((i + 1) % L.length) ∧
    (∀ v, createArrowValue L (some cur) (-1) = some v → v ∈ L) ∧
    (∀ v, createArrowValue L (some cur) 1 = some v → v ∈ L) := by
  refine ⟨?_, ?_, fun v hv => createArrowValue_mem L (some cur) (-1) v hv,
    fun v hv => createArrowValue_mem L (some cur) 1 v hv⟩ <;>
    rcases hL with rfl | rfl | rfl
  · have h3 : i < 3 := by simpa [PATTERNS] using hi
    interval_cases i <;> (simp [PATTERNS] at hc; subst hc; decide)
  · have h5 : i < 5 := by simpa [HATS] using hi
    interval_cases i <;> (simp [HATS] at hc; subst hc; decide)
  · have h7 : i < 7 := by simpa [NAMES] using hi
    interval_cases i <;> (simp [NAMES] at hc; subst hc; decide)
  · have h3 : i < 3 := by simpa [PATTERNS] using hi
    interval_cases i <;> (simp [PATTERNS] at hc; subst hc; decide)
  · have h5 : i < 5 := by simpa [HATS] using hi
    interval_cases i <;> (simp [HATS] at hc; subst hc; decide)
  · have h7 : i < 7 := by simpa [NAMES] using hi
    interval_cases i <;> (simp [NAMES] at hc; subst hc; decide)

/-- Witness for C10 at the pattern list, index 0: the left arrow wraps to
the last pattern and the right arrow moves to index 1. -/
theorem C10_arrow_wraparound_witness :
    (createArrowValue PATTERNS (some "Dots") (-1)
        = PATTERNS.get? ((0 + PATTERNS.length - 1) % PATTERNS.length) ∧
    createArrowValue PATTERNS (some "Dots") 1
        = PATTERNS.get? ((0 + 1) % PATTERNS.length) ∧
    (∀ v, createArrowValue PATTERNS (some "Dots") (-1) = some v →
        v ∈ PATTERNS) ∧
    (∀ v, createArrowValue PATTERNS (some "Dots") 1 = some v →
        v ∈ PATTERNS)) :=
  C10_arrow_wraparound PATTERNS 0 "Dots" (Or.inl rfl) (by decide) (by decide)

end FieldTurtle

namespace BlocklyDialogs

@[simp] lemma countClose_nil : countClose [] = 0 := rfl

@[simp] lemma countClose_cons (e : Ev) (tr : List Ev) :
    countClose (e :: tr) = countClose tr + (if isClose e then 1 else 0) :=
  List.countP_cons _ _ _

@[simp] lemma countClose_append (l r : List Ev) :
    countClose (l ++ r) = countClose l + countClose r :=
  List.countP_append _ _ _

@[simp] lemma countClose_wireTr (c : Content) : countClose (wireTr c) = 0 := by
  unfold wireTr
  induction c.hideButtons with
  | nil => rfl
  | cons b l ih => simp [ih, isClose]

@[simp] lemma countClose_map_move (l : List Nat) :
    countClose (l.map Ev.moveToBody) = 0 := by
  induction l with
  | nil => rfl
  | cons b l ih => simp [ih, isClose]

@[simp] lemma countClose_focusEvs (c : Content) : countClose (focusEvs c) = 0 := by
  unfold focusEvs
  repeat' split
  all_goals simp [isClose]

@[simp] lemma countClose_headerPhase (st : DState) :
    countClose (headerPhase st).2 = 0 := by
  unfold headerPhase
  split <;> simp [isClose]

@[simp] lemma countClose_movePhase (st : DState) :
    countClose (movePhase st).2 = 0 := by
  simp [movePhase]

@[simp] lemma countClose_hideEndPhase (an : Bool) (st3 : DState) :
    countClose (hideEndPhase an st3).2 = 0 := by
  cases an <;> cases h : st3.dialogOrigin <;>
    simp [hideEndPhase, hideEndResult, isClose, h]

@[simp] lemma countClose_hideEndResult (st : DState) :
    countClose (hideEndResult st).2 = 0 := by
  simp [hideEndResult, isClose]

@[simp] lemma schedHide_not_mem_hideEndResult (st : DState) :
    Ev.scheduleHideEnd ∉ (hideEndResult st).2 := by
  simp [hideEndResult]

@[simp] lemma countClose_closeEvs_some (t : Nat) :
    countClose (closeEvs (some t)) = 1 := by
  simp [closeEvs, isClose]

@[simp] lemma countClose_modalPhase (m : Bool) (st2 : DState) :
    countClose (modalPhase m st2).2 = 0 := by
  unfold modalPhase
  split <;> simp [isClose]

@[simp] lemma countClose_showEndResult (c : Content) (st : DState) :
    countClose (showEndResult c st).2 = 0 := by
  unfold showEndResult
  split <;> simp [isClose]

@[simp] lemma countClose_showEndPhase (c : Content) (o : Option Nat) (a : Bool)
    (st4 : DState) : countClose (showEndPhase c o a st4).2 = 0 := by
  unfold showEndPhase
  split <;> simp [isClose]

@[simp] lemma schedHide_not_mem_wireTr (c : Content) :
    Ev.scheduleHideEnd ∉ wireTr c := by
  simp [wireTr]

@[simp] lemma schedHide_not_mem_map_move (l : List Nat) :
    Ev.scheduleHideEnd ∉ l.map Ev.moveToBody := by
  simp

@[simp] lemma schedHide_not_mem_focusEvs (c : Content) :
    Ev.scheduleHideEnd ∉ focusEvs c := by
  unfold focusEvs
  repeat' split
  all_goals simp

@[simp] lemma schedHide_not_mem_headerPhase (st : DState) :
    Ev.scheduleHideEnd ∉ (headerPhase st).2 := by
  unfold headerPhase
  split <;> simp

@[simp] lemma schedHide_not_mem_movePhase (st : DState) :
    Ev.scheduleHideEnd ∉ (movePhase st).2 := by
  simp [movePhase]

@[simp] lemma schedHide_not_mem_modalPhase (m : Bool) (st2 : DState) :
    Ev.scheduleHideEnd ∉ (modalPhase m st2).2 := by
  unfold modalPhase
  split <;> simp

@[simp] lemma schedHide_not_mem_showEndPhase (c : Content) (o : Option Nat)
    (a : Bool) (st4 : DState) :
    Ev.scheduleHideEnd ∉ (showEndPhase c o a st4).2 := by
  unfold showEndPhase showEndResult
  split
  · simp
  · split <;> simp

@[simp] lemma hideEndPhase_false (st3 : DState) :
    hideEndPhase false st3 = hideEndResult st3 := rfl

@[simp] lemma schedHide_not_mem_closeEvs (d : Option Nat) :
    Ev.scheduleHideEnd ∉ closeEvs d := by
  cases d <;> simp [closeEvs]

@[simp] lemma clearClose_mem_closeEvs (d : Option Nat) :
    Ev.clearClose ∈ closeEvs d := by
  cases d <;> simp [closeEvs]

lemma showAfterHide_visible (st : DState) (hv : st.isDialogVisible = true) :
    showAfterHide st = hideDialog false st := by
  simp [showAfterHide, hv]

lemma hideDialog_tr (an : Bool) (st : DState) (hv : st.isDialogVisible = true) :
    (hideDialog an st).2
      = Ev.setVisibleFlag false :: closeEvs st.dialogDispose
          ++ (hideEndPhase an (hideSt3 st)).2 ++ [Ev.domHideDialog]
          ++ (headerPhase (hideSt5 an st)).2
          ++ (movePhase (headerPhase (hideSt5 an st)).1).2 := by
  simp [hideDialog, hv]

@[simp] lemma movePhase_iv (st : DState) :
    (movePhase st).1.isDialogVisible = st.isDialogVisible := rfl

@[simp] lemma movePhase_dispose (st : DState) :
    (movePhase st).1.dialogDispose = st.dialogDispose := rfl

@[simp] lemma headerPhase_iv (st : DState) :
    (headerPhase st).1.isDialogVisible = st.isDialogVisible := by
  unfold headerPhase
  split <;> rfl

@[simp] lemma headerPhase_dispose (st : DState) :
    (headerPhase st).1.dialogDispose = st.dialogDispose := by
  unfold headerPhase
  split <;> rfl

@[simp] lemma hideEndPhase_iv (an : Bool) (st3 : DState) :
    (hideEndPhase an st3).1.isDialogVisible = st3.isDialogVisible := by
  cases an <;> cases h : st3.dialogOrigin <;>
    simp [hideEndPhase, hideEndResult, h]

@[simp] lemma hideEndPhase_dispose (an : Bool) (st3 : DState) :
    (hideEndPhase an st3).1.dialogDispose = st3.dialogDispose := by
  cases an <;> cases h : st3.dialogOrigin <;>
    simp [hideEndPhase, hideEndResult, h]

@[simp] lemma hideSt5_iv (an : Bool) (st : DState) :
    (hideSt5 an st).isDialogVisible = false := by
  simp [hideSt5, hideSt3, dialogUnbindDragEvents_]

@[simp] lemma hideSt5_dispose (an : Bool) (st : DState) :
    (hideSt5 an st).dialogDispose = none := by
  simp [hideSt5, hideSt3, dialogUnbindDragEvents_]

lemma hideDialog_fst_iv (an : Bool) (st : DState) (hv : st.isDialogVisible = true) :
    (hideDialog an st).1.isDialogVisible = false := by
  simp [hideDialog, hv]

lemma hideDialog_fst_dispose (an : Bool) (st : DState)
    (hv : st.isDialogVisible = true) :
    (hideDialog an st).1.dialogDispose = none := by
  simp [hideDialog, hv]

lemma hideDialog_not_visible (an : Bool) (st : DState)
    (hv : st.isDialogVisible = false) :
    hideDialog an st = (st, []) := by
  simp [hideDialog, hv]

@[simp] lemma contentPhase_iv (c : Content) (st3 : DState) :
    (contentPhase c st3).isDialogVisible = st3.isDialogVisible := rfl

@[simp] lemma contentPhase_dispose (c : Content) (st3 : DState) :
    (contentPhase c st3).dialogDispose = st3.dialogDispose := rfl

@[simp] lemma modalPhase_iv (m : Bool) (st2 : DState) :
    (modalPhase m st2).1.isDialogVisible = st2.isDialogVisible := by
  unfold modalPhase
  split <;> rfl

@[simp] lemma modalPhase_dispose (m : Bool) (st2 : DState) :
    (modalPhase m st2).1.dialogDispose = st2.dialogDispose := by
  unfold modalPhase
  split <;> rfl

@[simp] lemma showSt2_iv (o d : Option Nat) (st : DState) :
    (showSt2 o d st).isDialogVisible = true := rfl

@[simp] lemma showSt2_dispose (o d : Option Nat) (st : DState) :
    (showSt2 o d st).dialogDispose = d := rfl

@[simp] lemma showEndPhase_iv (c : Content) (o : Option Nat) (a : Bool)
    (st4 : DState) :
    (showEndPhase c o a st4).1.isDialogVisible = st4.isDialogVisible := by
  unfold showEndPhase showEndResult
  split
  · rfl
  · split <;> rfl

@[simp] lemma showEndPhase_dispose (c : Content) (o : Option Nat) (a : Bool)
    (st4 : DState) :
    (showEndPhase c o a st4).1.dialogDispose = st4.dialogDispose := by
  unfold showEndPhase showEndResult
  split
  · rfl
  · split <;> rfl

lemma showDialog_some_iv (c : Content) (o : Option Nat) (a m : Bool)
    (d : Option Nat) (st : DState) :
    (showDialog (some c) o a m d st).st.isDialogVisible = true := by
  simp [showDialog]

lemma showDialog_some_dispose (c : Content) (o : Option Nat) (a m : Bool)
    (d : Option Nat) (st : DState) :
    (showDialog (some c) o a m d st).st.dialogDispose = d := by
  simp [showDialog]

/-- C1: at most one dialog is visible at a time (the model has a single
visibility flag): from every state in which a dialog is visible, calling
`showDialog` with a non-null content succeeds, first force-hides the
previous dialog with no animation (no deferred hide completion is
scheduled anywhere in the trace), invoking and clearing the previous
dialog's `onClose` callback exactly once, strictly before the new dialog's
content is appended to the dialog container. -/
theorem C1_force_hide_before_append (c : Content) (origin : Option Nat)
    (animate modal : Bool) (dispose : Option Nat) (tok : Nat) (st : DState)
    (hv : st.isDialogVisible = true) (hd : st.dialogDispose = some tok) :
    (showDialog (some c) origin animate modal dispose st).err = none ∧
    countClose (showDialog (some c) origin animate modal dispose st).tr = 1 ∧
    Ev.scheduleHideEnd ∉ (showDialog (some c) origin animate modal dispose st).tr ∧
    ∃ pre post,
      (showDialog (some c) origin animate modal dispose st).tr
          = pre ++ Ev.appendContent c.id :: post ∧
      countClose pre = 1 ∧ Ev.invokeClose tok ∈ pre ∧ Ev.clearClose ∈ pre ∧
      countClose post = 0 := by
  have htr := hideDialog_tr false st hv
  refine ⟨rfl, ?_, ?_, ?_⟩
  · simp [showDialog, showAfterHide, hv, htr, hd, isClose]
  · simp [showDialog, showAfterHide, hv, htr, hd, hideEndResult, closeEvs]
  · refine ⟨Ev.nullCheckPass :: wireTr c ++ (hideDialog false st).2
        ++ [Ev.setVisibleFlag true]
        ++ (modalPhase modal (showSt2 origin dispose st)).2,
      Ev.unmarkContent c.id :: (showEndPhase c origin animate
        (contentPhase c (modalPhase modal (showSt2 origin dispose st)).1)).2,
      ?_, ?_, ?_, ?_, ?_⟩
    · simp [showDialog, showAfterHide, hv]
    · simp [htr, hd, isClose]
    · simp [htr, hd, closeEvs]
    · simp [htr, hd, closeEvs]
    · simp [isClose]

/-- Witness for C1 at a concrete visible state with a pending dispose
callback. -/
theorem C1_force_hide_before_append_witness :
    ((showDialog (some ⟨2, [], [], [], []⟩) none false false none
        (showDialog (some ⟨1, [], [], [], []⟩) none false false (some 7)
          initState).st).err = none ∧
    countClose (showDialog (some ⟨2, [], [], [], []⟩) none false false none
        (showDialog (some ⟨1, [], [], [], []⟩) none false false (some 7)
          initState).st).tr = 1 ∧
    Ev.scheduleHideEnd ∉ (showDialog (some ⟨2, [], [], [], []⟩) none false false
        none (showDialog (some ⟨1, [], [], [], []⟩) none false false (some 7)
          initState).st).tr ∧
    ∃ pre post,
      (showDialog (some ⟨2, [], [], [], []⟩) none false false none
          (showDialog (some ⟨1, [], [], [], []⟩) none false false (some 7)
            initState).st).tr
          = pre ++ Ev.appendContent (2 : Nat) :: post ∧
      countClose pre = 1 ∧ Ev.invokeClose 7 ∈ pre ∧ Ev.clearClose ∈ pre ∧
      countClose post = 0) :=
  C1_force_hide_before_append ⟨2, [], [], [], []⟩ none false false none 7
    (showDialog (some ⟨1, [], [], [], []⟩) none false false (some 7) initState).st
    (by decide) (by decide)

/-- C3: `hideDialog` on a state with no visible dialog is a silent no-op
that leaves the state unchanged and performs no DOM mutation; after a
`showDialog` with an `onClose` callback, the first `hideDialog` invokes
that callback exactly once and clears it, the clearing happening strictly
before the dialog container is hidden (`Ev.domHideDialog`), and a second
consecutive `hideDialog` is a no-op with an empty trace. -/
theorem C3_hide_twice_noop (c : Content) (origin : Option Nat)
    (animate modal an1 an2 an3 : Bool) (tok : Nat) (st stHidden : DState)
    (hv0 : stHidden.isDialogVisible = false) :
    hideDialog an1 stHidden = (stHidden, []) ∧
    countClose (hideDialog an2
        (showDialog (some c) origin animate modal (some tok) st).st).2 = 1 ∧
    (hideDialog an2
        (showDialog (some c) origin animate modal (some tok) st).st).1.dialogDispose
      = none ∧
    (∃ pre post,
      (hideDialog an2
          (showDialog (some c) origin animate modal (some tok) st).st).2
        = pre ++ Ev.domHideDialog :: post ∧
      Ev.invokeClose tok ∈ pre ∧ Ev.clearClose ∈ pre ∧ countClose pre = 1) ∧
    hideDialog an3 (hideDialog an2
        (showDialog (some c) origin animate modal (some tok) st).st).1
      = ((hideDialog an2
          (showDialog (some c) origin animate modal (some tok) st).st).1, []) := by
  have hiv := showDialog_some_iv c origin animate modal (some tok) st
  have hdp := showDialog_some_dispose c origin animate modal (some tok) st
  have htr := hideDialog_tr an2
    (showDialog (some c) origin animate modal (some tok) st).st hiv
  refine ⟨hideDialog_not_visible an1 stHidden hv0, ?_,
    hideDialog_fst_dispose an2 _ hiv, ?_, ?_⟩
  · simp [htr, hdp, isClose]
  · refine ⟨Ev.setVisibleFlag false
        :: closeEvs (showDialog (some c) origin animate modal (some tok) st).st.dialogDispose
        ++ (hideEndPhase an2 (hideSt3
          (showDialog (some c) origin animate modal (some tok) st).st)).2,
      (headerPhase (hideSt5 an2
          (showDialog (some c) origin animate modal (some tok) st).st)).2
        ++ (movePhase (headerPhase (hideSt5 an2
          (showDialog (some c) origin animate modal (some tok) st).st)).1).2,
      ?_, ?_, ?_, ?_⟩
    · simp [htr]
    · simp [hdp, closeEvs]
    · simp [hdp, closeEvs]
    · simp [hdp, closeEvs, isClose]
  · exact hideDialog_not_visible an3 _ (hideDialog_fst_iv an2 _ hiv)

/-- Witness for C3 at a concrete show / hide / hide run. -/
theorem C3_hide_twice_noop_witness :
    (hideDialog true initState = (initState, []) ∧
    countClose (hideDialog true
        (showDialog (some ⟨1, [], [], [], []⟩) none false false (some 7)
          initState).st).2 = 1 ∧
    (hideDialog true
        (showDialog (some ⟨1, [], [], [], []⟩) none false false (some 7)
          initState).st).1.dialogDispose = none ∧
    (∃ pre post,
      (hideDialog true
          (showDialog (some ⟨1, [], [], [], []⟩) none false false (some 7)
            initState).st).2
        = pre ++ Ev.domHideDialog :: post ∧
      Ev.invokeClose 7 ∈ pre ∧ Ev.clearClose ∈ pre ∧ countClose pre = 1) ∧
    hideDialog false (hideDialog true
        (showDialog (some ⟨1, [], [], [], []⟩) none false false (some 7)
          initState).st).1
      = ((hideDialog true
          (showDialog (some ⟨1, [], [], [], []⟩) none false false (some 7)
            initState).st).1, [])) :=
  C3_hide_twice_noop ⟨1, [], [], [], []⟩ none false false true true false 7
    initState initState rfl

lemma mem_addMark {m : List Nat} {x y : Nat} :
    y ∈ addMark m x ↔ y ∈ m ∨ y = x := by
  unfold addMark
  split
  · rename_i hx
    constructor
    · exact Or.inl
    · rintro (h | rfl)
      · exact h
      · exact hx
  · simp

lemma showDialog_some_dom (c : Content) (origin : Option Nat) (a m : Bool)
    (d : Option Nat) (st : DState) (hv : st.isDialogVisible = false)
    (hch : st.dialogChildren = []) :
    (showDialog (some c) origin a m d st).st.dialogChildren
        = (if m then [st.nextId, c.id] else [c.id]) ∧
    (showDialog (some c) origin a m d st).st.headerId
        = (if m then some st.nextId else st.headerId) ∧
    (showDialog (some c) origin a m d st).st.bodyExtra
        = st.bodyExtra.erase c.id ∧
    (showDialog (some c) origin a m d st).st.hiddenMarked
        = st.hiddenMarked.erase c.id := by
  cases m <;> by_cases ha : (a && origin.isSome) = true <;>
    simp [showDialog, showAfterHide, showSt2, modalPhase, contentPhase,
      showEndPhase, showEndResult, hv, hch, ha]

lemma hideDialog_result_dom (st : DState) (hv : st.isDialogVisible = true) :
    (hideDialog false st).1.dialogChildren = [] ∧
    (hideDialog false st).1.bodyExtra
        = st.bodyExtra ++ (match st.headerId with
            | some h => st.dialogChildren.erase h
            | none => st.dialogChildren) ∧
    (hideDialog false st).1.hiddenMarked
        = (match st.headerId with
            | some h => st.dialogChildren.erase h
            | none => st.dialogChildren).foldl addMark st.hiddenMarked := by
  rcases hh : st.headerId with _ | h <;>
    simp [hideDialog, hv, movePhase, headerPhase, hideSt5, hideSt3,
      hideEndPhase, hideEndResult, dialogUnbindDragEvents_, hh]

/-- C7 counterexample: with `modal = true`, the drag-handle header is a
child of the dialog container while shown, but `hideDialog` removes it
from the DOM outright: it is neither re-attached to the body nor given the
`dialogHiddenContent` marker, refuting the claim that every element that
was a child of the dialog container is marked and re-attached to the
body. -/
theorem C7_counterexample :
    (100 : Nat) ∈ (showDialog (some ⟨1, [], [], [], []⟩) none false true none
        initState).st.dialogChildren ∧
    (100 : Nat) ∉ (hideDialog false
        (showDialog (some ⟨1, [], [], [], []⟩) none false true none
          initState).st).1.bodyExtra ∧
    (100 : Nat) ∉ (hideDialog false
        (showDialog (some ⟨1, [], [], [], []⟩) none false true none
          initState).st).1.hiddenMarked ∧
    (hideDialog false
        (showDialog (some ⟨1, [], [], [], []⟩) none false true none
          initState).st).1.dialogChildren = [] := by
  decide

/-- C7 (amended): for every non-null content shown from a clean hidden
state, `showDialog` followed by `hideDialog(false)` leaves the dialog
container with no children; every element that was a child of the dialog
container other than the modal drag header -- in particular the content --
carries the `dialogHiddenContent` marker class and is re-attached as a
child of the document body; the modal drag header, when present, is
removed from the DOM outright (neither marked nor re-attached). -/
theorem C7_round_trip_amended (c : Content) (origin : Option Nat)
    (animate modal : Bool) (dispose : Option Nat) (st : DState)
    (hv : st.isDialogVisible = false) (hch : st.dialogChildren = [])
    (hhd : st.headerId = none) (hid : c.id ≠ st.nextId)
    (hb : st.nextId ∉ st.bodyExtra) (hmk : st.nextId ∉ st.hiddenMarked) :
    (hideDialog false (showDialog (some c) origin animate modal dispose
        st).st).1.dialogChildren = [] ∧
    c.id ∈ (hideDialog false (showDialog (some c) origin animate modal dispose
        st).st).1.bodyExtra ∧
    c.id ∈ (hideDialog false (showDialog (some c) origin animate modal dispose
        st).st).1.hiddenMarked ∧
    (∀ x ∈ (showDialog (some c) origin animate modal dispose
        st).st.dialogChildren,
      (showDialog (some c) origin animate modal dispose st).st.headerId
          ≠ some x →
      x ∈ (hideDialog false (showDialog (some c) origin animate modal dispose
          st).st).1.bodyExtra ∧
      x ∈ (hideDialog false (showDialog (some c) origin animate modal dispose
          st).st).1.hiddenMarked) ∧
    (modal = true →
      (showDialog (some c) origin animate modal dispose st).st.headerId
          = some st.nextId ∧
      st.nextId ∈ (showDialog (some c) origin animate modal dispose
          st).st.dialogChildren ∧
      st.nextId ∉ (hideDialog false (showDialog (some c) origin animate modal
          dispose st).st).1.bodyExtra ∧
      st.nextId ∉ (hideDialog false (showDialog (some c) origin animate modal
          dispose st).st).1.hiddenMarked) := by
  obtain ⟨hc1, hc2, hc3, hc4⟩ :=
    showDialog_some_dom c origin animate modal dispose st hv hch
  obtain ⟨hd1, hd2, hd3⟩ := hideDialog_result_dom
    (showDialog (some c) origin animate modal dispose st).st
    (showDialog_some_iv c origin animate modal dispose st)
  simp only [hc1, hc2, hc3, hc4] at hd2 hd3
  have hmem : st.nextId ∉ st.bodyExtra.erase c.id :=
    fun hx => hb (List.mem_of_mem_erase hx)
  have hmem2 : st.nextId ∉ st.hiddenMarked.erase c.id :=
    fun hx => hmk (List.mem_of_mem_erase hx)
  cases modal with
  | true =>
    simp only [if_true] at hd2 hd3 hc1 hc2
    rw [List.erase_cons_head] at hd2 hd3
    simp only [List.foldl] at hd3
    refine ⟨hd1, ?_, ?_, ?_, ?_⟩
    · rw [hd2]; simp
    · rw [hd3]; exact mem_addMark.mpr (Or.inr rfl)
    · intro x hx hne
      rw [hc1] at hx
      rw [hc2] at hne
      simp only [List.mem_cons, List.not_mem_nil, or_false] at hx
      rcases hx with rfl | rfl
      · exact absurd rfl hne
      · exact ⟨by rw [hd2]; simp, by rw [hd3]; exact mem_addMark.mpr (Or.inr rfl)⟩
    · intro _
      refine ⟨hc2, ?_, ?_, ?_⟩
      · rw [hc1]; simp
      · rw [hd2]
        simp only [List.mem_append, List.mem_singleton]
        rintro (hx | hx)
        · exact hmem hx
        · exact hid hx.symm
      · rw [hd3]
        intro hx
        rcases mem_addMark.mp hx with hx | hx
        · exact hmem2 hx
        · exact hid hx.symm
  | false =>
    simp only [if_false, Bool.false_eq_true] at hd2 hd3 hc1 hc2
    rw [hhd] at hc2
    simp only [hhd, List.foldl] at hd2 hd3
    refine ⟨hd1, ?_, ?_, ?_, ?_⟩
    · rw [hd2]; simp
    · rw [hd3]; exact mem_addMark.mpr (Or.inr rfl)
    · intro x hx hne
      rw [hc1] at hx
      simp only [List.mem_cons, List.not_mem_nil, or_false] at hx
      subst hx
      exact ⟨by rw [hd2]; simp, by rw [hd3]; exact mem_addMark.mpr (Or.inr rfl)⟩
    · intro hfalse
      cases hfalse

/-- Witness for C7 (amended) at a concrete modal show / hide round
trip. -/
theorem C7_round_trip_amended_witness :
    ((hideDialog false (showDialog (some ⟨1, [], [], [], []⟩) none false true
        none initState).st).1.dialogChildren = [] ∧
    (1 : Nat) ∈ (hideDialog false (showDialog (some ⟨1, [], [], [], []⟩) none
        false true none initState).st).1.bodyExtra ∧
    (1 : Nat) ∈ (hideDialog false (showDialog (some ⟨1, [], [], [], []⟩) none
        false true none initState).st).1.hiddenMarked ∧
    (∀ x ∈ (showDialog (some ⟨1, [], [], [], []⟩) none false true none
        initState).st.dialogChildren,
      (showDialog (some ⟨1, [], [], [], []⟩) none false true none
          initState).st.headerId ≠ some x →
      x ∈ (hideDialog false (showDialog (some ⟨1, [], [], [], []⟩) none false
          true none initState).st).1.bodyExtra ∧
      x ∈ (hideDialog false (showDialog (some ⟨1, [], [], [], []⟩) none false
          true none initState).st).1.hiddenMarked) ∧
    (true = true →
      (showDialog (some ⟨1, [], [], [], []⟩) none false true none
          initState).st.headerId = some initState.nextId ∧
      initState.nextId ∈ (showDialog (some ⟨1, [], [], [], []⟩) none false true
          none initState).st.dialogChildren ∧
      initState.nextId ∉ (hideDialog false (showDialog (some ⟨1, [], [], [],
          []⟩) none false true none initState).st).1.bodyExtra ∧
      initState.nextId ∉ (hideDialog false (showDialog (some ⟨1, [], [], [],
          []⟩) none false true none initState).st).1.hiddenMarked)) :=
  C7_round_trip_amended ⟨1, [], [], [], []⟩ none false true none initState
    rfl rfl rfl (by decide) (by decide) (by decide)

/-- C5: during a drag started with the dialog at offset `(sx, sy)` and
mouse-down at client `(mx, my)`, every subsequent mouse-move to `(cx, cy)`
sets the dialog's left to `clamp(sx - mx + cx, 0, viewportWidth -
dialogWidth)` and its top to `clamp(sy - my + cy, 0, viewportHeight -
dialogHeight)`, each axis clamped independently with the lower bound `0`
applied first and the upper bound applied second. -/
theorem C5_drag_clamp (sx sy mx my cx cy : Int) (vp : Viewport) (st : DState) :
    ((dispatchMouseMove vp ⟨false, cx, cy⟩
        (dialogMouseDown_ ⟨false, mx, my⟩
          { st with dialogLeft := sx, dialogTop := sy })).dialogLeft
       = clampLowThenHigh (sx - mx + cx) 0 (vp.innerWidth - vp.dialogWidth)) ∧
    ((dispatchMouseMove vp ⟨false, cx, cy⟩
        (dialogMouseDown_ ⟨false, mx, my⟩
          { st with dialogLeft := sx, dialogTop := sy })).dialogTop
       = clampLowThenHigh (sy - my + cy) 0 (vp.innerHeight - vp.dialogHeight)) := by
  simp [dispatchMouseMove, dialogMouseDown_, dialogUnbindDragEvents_,
    dialogMouseMove_, clampLowThenHigh, sub_add_eq_add_sub]

/-- C6: a right-button mouse-down on the dialog header never starts a
drag: any previously bound drag listeners are unbound first, no
document-level mouse-move or mouse-up listeners remain bound afterwards,
and every subsequent mouse-move leaves the state (in particular the
dialog's position) unchanged. -/
theorem C6_right_click_no_drag (e e2 : MouseEvent) (st : DState) (vp : Viewport)
    (h : e.rightButton = true) :
    (dialogMouseDown_ e st).dialogMouseUpWrapper = none ∧
    (dialogMouseDown_ e st).dialogMouseMoveWrapper = none ∧
    dispatchMouseMove vp e2 (dialogMouseDown_ e st) = dialogMouseDown_ e st ∧
    (dialogMouseDown_ e st).dialogLeft = st.dialogLeft ∧
    (dialogMouseDown_ e st).dialogTop = st.dialogTop := by
  simp [dialogMouseDown_, dialogUnbindDragEvents_, dispatchMouseMove, h]

/-- Witness for C6 at a concrete right-button event and state. -/
theorem C6_right_click_no_drag_witness :
    (dialogMouseDown_ ⟨true, 5, 6⟩ initState).dialogMouseUpWrapper = none ∧
    (dialogMouseDown_ ⟨true, 5, 6⟩ initState).dialogMouseMoveWrapper = none ∧
    dispatchMouseMove ⟨800, 600, 100, 50⟩ ⟨false, 7, 8⟩
        (dialogMouseDown_ ⟨true, 5, 6⟩ initState)
      = dialogMouseDown_ ⟨true, 5, 6⟩ initState ∧
    (dialogMouseDown_ ⟨true, 5, 6⟩ initState).dialogLeft = initState.dialogLeft ∧
    (dialogMouseDown_ ⟨true, 5, 6⟩ initState).dialogTop = initState.dialogTop :=
  C6_right_click_no_drag ⟨true, 5, 6⟩ ⟨false, 7, 8⟩ initState ⟨800, 600, 100, 50⟩ rfl

/-- C2 counterexample: at a concrete non-null content with one
`addHideHandler` button, the null check (line 77) strictly precedes the
auto-hide-marker wiring (line 80) in the operation's trace, contradicting
the claim that the wiring happens before the null check in the natural
order of the operation. -/
theorem C2_counterexample :
    Ev.nullCheckPass ∈
        (showDialog (some ⟨1, [5], [], [], []⟩) none false false none initState).tr ∧
    Ev.wireHideHandler 5 ∈
        (showDialog (some ⟨1, [5], [], [], []⟩) none false false none initState).tr ∧
    ((showDialog (some ⟨1, [5], [], [], []⟩) none false false none initState).tr.indexOf
        Ev.nullCheckPass <
      (showDialog (some ⟨1, [5], [], [], []⟩) none false false none initState).tr.indexOf
        (Ev.wireHideHandler 5)) := by
  decide

/-- C2 (amended): `showDialog` fails with a `TypeError` whenever its
content argument is null, and the operation is aborted with no DOM
mutation at all; the null check is the first step of the operation,
performed before the auto-hide-marker wiring. -/
theorem C2_null_content_throws (origin : Option Nat) (animate modal : Bool)
    (dispose : Option Nat) (st : DState) (c : Content) :
    (showDialog none origin animate modal dispose st).err
        = some "TypeError: Content not found" ∧
    (showDialog none origin animate modal dispose st).st = st ∧
    (showDialog none origin animate modal dispose st).tr = [Ev.nullCheckFail] ∧
    ((showDialog (some c) origin animate modal dispose st).tr.take
        (c.hideButtons.length + 1)
      = Ev.nullCheckPass :: c.hideButtons.map Ev.wireHideHandler) := by
  refine ⟨rfl, rfl, rfl, ?_⟩
  simp only [showDialog, wireTr, List.append_assoc]
  simp

/-- C4 counterexample: the deferred completion step of the hide animation
does not re-check visibility.  Concretely: show a modal dialog with an
origin, hide it with animation (scheduling the deferred step), show a
second modal dialog within the animation window; when the stale hide
completion fires it hides the new dialog's backdrop even though a dialog
is visible — it is not a no-op. -/
theorem C4_counterexample :
    (Ev.scheduleHideEnd ∈
        (hideDialog true
          (showDialog (some ⟨1, [], [], [], []⟩) (some 42) false true none
            initState).st).2) ∧
    (showDialog (some ⟨2, [], [], [], []⟩) none false true none
        (hideDialog true
          (showDialog (some ⟨1, [], [], [], []⟩) (some 42) false true none
            initState).st).1).st.isDialogVisible = true ∧
    (showDialog (some ⟨2, [], [], [], []⟩) none false true none
        (hideDialog true
          (showDialog (some ⟨1, [], [], [], []⟩) (some 42) false true none
            initState).st).1).st.shadowVisible = true ∧
    (hideEndResult
        (showDialog (some ⟨2, [], [], [], []⟩) none false true none
          (hideDialog true
            (showDialog (some ⟨1, [], [], [], []⟩) (some 42) false true none
              initState).st).1).st).1.shadowVisible = false ∧
    (hideEndResult
        (showDialog (some ⟨2, [], [], [], []⟩) none false true none
          (hideDialog true
            (showDialog (some ⟨1, [], [], [], []⟩) (some 42) false true none
              initState).st).1).st).1
      ≠ (showDialog (some ⟨2, [], [], [], []⟩) none false true none
          (hideDialog true
            (showDialog (some ⟨1, [], [], [], []⟩) (some 42) false true none
              initState).st).1).st := by
  decide

/-- C4 (amended): the show animation's deferred completion step re-checks
the current visibility state and is a no-op when the dialog is no longer
visible; the hide animation's deferred completion step performs its
mutations (hiding the backdrop and border) unconditionally, without
re-checking visibility. -/
theorem C4_deferred_steps (c : Content) (st st2 : DState)
    (h : st.isDialogVisible = false) :
    showEndResult c st = (st, []) ∧
    (hideEndResult st2).1
        = { st2 with shadowZ := -1, shadowVisible := false, borderVisible := false } ∧
    (hideEndResult st2).2 = [Ev.domHideShadow] := by
  refine ⟨?_, rfl, rfl⟩
  simp [showEndResult, h]

/-- Witness for C4 (amended) at a concrete content and states. -/
theorem C4_deferred_steps_witness :
    showEndResult ⟨1, [], [], [], []⟩ initState = (initState, []) ∧
    (hideEndResult initState).1
        = { initState with
              shadowZ := -1, shadowVisible := false, borderVisible := false } ∧
    (hideEndResult initState).2 = [Ev.domHideShadow] :=
  C4_deferred_steps ⟨1, [], [], [], []⟩ initState initState rfl

/-- C8: `abortOffer` with a truthy stored level-complete flag returns
without showing any dialog, from every state -- blocked or not; when that
flag is falsy but a dialog is already visible or a workspace drag is in
progress, it shows nothing and reschedules itself to retry after
15 seconds (15000 ms). -/
theorem C8_abort_offer_guards (dragging : Bool) (c : Content) (tok : Nat)
    (st stBlocked : DState)
    (h : stBlocked.isDialogVisible = true ∨ dragging = true) :
    abortOffer true dragging c tok st = (AbortAction.returnSolved, st, []) ∧
    abortOffer false dragging c tok stBlocked
      = (AbortAction.reschedule 15000, stBlocked, []) := by
  constructor
  · simp [abortOffer]
  · rcases h with h | h <;> simp [abortOffer, h]

/-- Witness for C8: the truthy-flag half at the unblocked initial state
(nothing visible, no drag -- the flag guard alone prevents the dialog),
the reschedule half at a concrete blocked state (dialog visible). -/
theorem C8_abort_offer_guards_witness :
    abortOffer true false ⟨3, [], [], [], []⟩ 7 initState
      = (AbortAction.returnSolved, initState, []) ∧
    abortOffer false false ⟨3, [], [], [], []⟩ 7
        { initState with isDialogVisible := true }
      = (AbortAction.reschedule 15000,
         { initState with isDialogVisible := true }, []) :=
  C8_abort_offer_guards false ⟨3, [], [], [], []⟩ 7 initState
    { initState with isDialogVisible := true } (Or.inl rfl)

end BlocklyDialogs
